import Mathlib

/-!
Shallow embedding of `src/app.py`, a concurrent Amazon listing scraper.

HTML documents are modelled at the granularity at which the source observes
them through BeautifulSoup selectors: a listing-page body is the list of
texts of its disabled pagination spans plus the list of its product
containers, and a product detail body is the two selector result lists the
source queries.  HTTP is modelled by an environment mapping each request to
a response; the state threaded through every function records fetch-call
counters, the three log streams and the CSV files written.  Python
exceptions are modelled with `Except`: a raised exception propagates as an
`Except.error` paired with the state at the raise point (side effects that
happened before the raise persist, as in Python).
-/

deriving instance DecidableEq for Except

/-- The Python exceptions the source can raise or catch. -/
inductive PyError where
  | valueError (msg : String)
  | attributeError (msg : String)
deriving DecidableEq

/-- An HTML element as the source observes it: its text content and (for
anchors) its `href` attribute, `none` when the attribute is absent. -/
structure Elem where
  text : String
  href : Option String := none
deriving DecidableEq

/-- One product container of a listing page.  Each field is the result of
the corresponding `select_one` call in `scrape_page` (src/app.py lines
129-132); `none` models a missing element. -/
structure ProductCard where
  title_elem : Option Elem := none
  price_elem : Option Elem := none
  rating_elem : Option Elem := none
  seller_url_elem : Option Elem := none
deriving DecidableEq

/-- A listing-page body, seen through the two selectors the source applies
to it: `span.s-pagination-item.s-pagination-disabled` (line 57) and the
product-container selector (line 128). -/
structure ListingBody where
  paginationDisabled : List Elem := []
  productCards : List ProductCard := []
deriving DecidableEq

/-- A product detail-page body, seen through `select("#availability")` and
`select("#sellerProfileTriggerId")` (lines 97 and 102).  `select` returns a
list of matches. -/
structure DetailBody where
  availability : List Elem := []
  sellerProfile : List Elem := []
deriving DecidableEq

/-- An HTTP response: status code and (already parsed) body. -/
structure HttpResp (β : Type) where
  status : Nat
  body : β
deriving DecidableEq

/-- The network environment.  `baseResp i` is the response to the i-th
fetch of the bare search URL (`get_max_page` may be called more than once
and the site may answer differently each time); `listingResp k` is the
response to fetching the search URL with `&page=k`; `sellerResp u` is the
response to fetching the seller-detail URL `u`. -/
structure Env where
  baseResp : Nat → HttpResp ListingBody
  listingResp : Nat → HttpResp ListingBody
  sellerResp : String → HttpResp DetailBody

/-- A Python `Union[str, bool]` value, the declared result type of
`get_seller`. -/
inductive StrOrBool where
  | str (s : String)
  | bool (b : Bool)
deriving DecidableEq

/-- One row of the output: the dict appended at src/app.py line 145. -/
structure ProductRecord where
  title : String
  price : String
  rating : String
  seller : StrOrBool
deriving DecidableEq

/-- The observable state threaded through the embedding: the three log
streams, one fetch counter per request kind, and the CSV files written
(path paired with the data rows; the header row is implicit). -/
structure St where
  warnings : List String := []
  infos : List String := []
  errlog : List String := []
  baseFetchCalls : Nat := 0
  listingFetchCalls : Nat := 0
  sellerFetchCalls : Nat := 0
  csvWrites : List (String × List ProductRecord) := []
deriving DecidableEq

/-- The state at process start: nothing fetched, nothing logged. -/
def initSt : St := {}

/-- `logger.warning`. -/
def addWarn (s : St) (m : String) : St := { s with warnings := s.warnings ++ [m] }

/-- `logger.info` / `logging.info`. -/
def addInfo (s : St) (m : String) : St := { s with infos := s.infos ++ [m] }

/-- `logging.error`. -/
def addErr (s : St) (m : String) : St := { s with errlog := s.errlog ++ [m] }

/-- Effect of one `requests.get` on the bare search URL. -/
def bumpBase (s : St) : St := { s with baseFetchCalls := s.baseFetchCalls + 1 }

/-- Effect of one `requests.get` on a listing page URL. -/
def bumpListing (s : St) : St := { s with listingFetchCalls := s.listingFetchCalls + 1 }

/-- Effect of one `requests.get` on a seller-detail URL. -/
def bumpSeller (s : St) : St := { s with sellerFetchCalls := s.sellerFetchCalls + 1 }

/-- The whitespace characters Python's `str.strip()` removes. -/
def isPySpace (c : Char) : Bool :=
  c = ' ' || c = '\t' || c = '\n' || c = '\r' || c = Char.ofNat 11 || c = Char.ofNat 12

/-- Python `str.strip()`: drop leading and trailing whitespace. -/
def pyStrip (s : String) : String :=
  String.mk (((s.data.dropWhile isPySpace).reverse.dropWhile isPySpace).reverse)

/-- Decimal digits to a number, `none` on a non-digit. -/
def pyDigitsAux : List Char → Nat → Option Nat
  | [], acc => some acc
  | c :: cs, acc =>
    if c.isDigit then pyDigitsAux cs (acc * 10 + (c.toNat - 48)) else none

/-- A non-empty all-digit character sequence to a number. -/
def pyDigits : List Char → Option Nat
  | [] => none
  | cs => pyDigitsAux cs 0

/-- Python `int(str)` applied to an already-stripped string: an optional
sign followed by at least one digit parses, anything else raises
`ValueError` (modelled as `none`; digit-group underscores and non-ASCII
digits are not modelled). -/
def pyInt (s : String) : Option Int :=
  match s.data with
  | '-' :: cs => (pyDigits cs).map (fun n => -(n : Int))
  | '+' :: cs => (pyDigits cs).map (fun n => (n : Int))
  | cs => (pyDigits cs).map (fun n => (n : Int))

/-- Python `x or d` for strings: the empty string is falsy. -/
def pyOr (x d : String) : String := if x = "" then d else x

/-- Attribute access `.text` on the list-like ResultSet returned by
`soup.select(...)` (src/app.py lines 97 and 102).  bs4's ResultSet is a
list subclass whose attribute lookup always raises AttributeError
("ResultSet object has no attribute ... You're probably treating a list of
elements like a single element"), whatever the list contains. -/
def resultSetText (_rs : List Elem) : Except PyError String :=
  .error (.attributeError "ResultSet object has no attribute text")

/-- `seller_url_elem.get("href", "N/A")` (src/app.py line 137), where
`seller_url_elem` is the result of `select_one` and may be `None`:
`None.get` raises AttributeError, `Tag.get` returns the attribute or the
default. -/
def noneOrGetHref : Option Elem → Except PyError String
  | none => .error (.attributeError "NoneType object has no attribute get")
  | some el => .ok (el.href.getD "N/A")

/-- A successful HTTP status in the 2xx range. -/
def is2xx (n : Nat) : Prop := 200 ≤ n ∧ n < 300

instance is2xxDec (n : Nat) : Decidable (is2xx n) :=
  inferInstanceAs (Decidable (200 ≤ n ∧ n < 300))

/-- `get_max_page` (src/app.py lines 32-66): fetch the bare search URL;
non-200 raises ValueError; else take the last
`span.s-pagination-item.s-pagination-disabled` element and return
`int(text.strip())`, raising ValueError when the parse fails or when no
such element exists. -/
def get_max_page (env : Env) (s : St) : Except PyError Int × St :=
  let response := env.baseResp s.baseFetchCalls
  let s1 := bumpBase s
  if response.status ≠ 200 then
    (.error (.valueError ("Failed to fetch page. Status code: " ++ toString response.status)), s1)
  else
    match response.body.paginationDisabled.getLast? with
    | some el =>
      match pyInt (pyStrip el.text) with
      | some n => (.ok n, s1)
      | none => (.error (.valueError "Failed to extract the max page number."), s1)
    | none => (.error (.valueError "Pagination information not found on the page."), s1)

/-- `get_seller` (src/app.py lines 77-104): fetch the seller-detail URL;
on non-200 log a warning and return `False`; otherwise evaluate
`soup.select("#availability").text.strip() or "N/A"` (which, `select`
returning a list, raises AttributeError — see `resultSetText`), and were it
to produce "In stock", extract the seller name the same way, else return
"N/A". -/
def get_seller (env : Env) (url : String) (s : St) : Except PyError StrOrBool × St :=
  let response := env.sellerResp url
  let s1 := bumpSeller s
  if response.status ≠ 200 then
    (.ok (.bool false), addWarn s1 ("Failed to fetch page " ++ url ++ ": " ++ toString response.status))
  else
    match resultSetText response.body.availability with
    | .error e => (.error e, s1)
    | .ok t =>
      let stock_detail := pyOr (pyStrip t) "N/A"
      if stock_detail = "In stock" then
        match resultSetText response.body.sellerProfile with
        | .error e => (.error e, s1)
        | .ok t2 => (.ok (.str (pyOr (pyStrip t2) "N/A")), s1)
      else (.ok (.str "N/A"), s1)

/-- The loop body of `scrape_page` over the product containers (src/app.py
lines 128-145): per card, title/price/rating default to "N/A" when the
element is missing; the seller URL comes from
`seller_url_elem.get("href", "N/A")` (which raises when the element is
missing); when it is not "N/A", `get_seller` is called.  An exception
discards the whole page's list, as in Python. -/
def scrapeCards (env : Env) : List ProductCard → St → Except PyError (List ProductRecord) × St
  | [], s => (.ok [], s)
  | item :: rest, s =>
    let title := match item.title_elem with
      | some el => pyStrip el.text
      | none => "N/A"
    let price := match item.price_elem with
      | some el => pyStrip el.text
      | none => "N/A"
    let rating := match item.rating_elem with
      | some el => pyStrip el.text
      | none => "N/A"
    match noneOrGetHref item.seller_url_elem with
    | .error e => (.error e, s)
    | .ok seller_url =>
      match (if seller_url ≠ "N/A" then get_seller env seller_url s
             else (.ok (.str "N/A"), s)) with
      | (.error e, s1) => (.error e, s1)
      | (.ok seller_detail, s1) =>
        match scrapeCards env rest s1 with
        | (.error e, s2) => (.error e, s2)
        | (.ok ps, s2) =>
          (.ok ({ title := title, price := price, rating := rating,
                  seller := seller_detail } :: ps), s2)

/-- `scrape_page` (src/app.py lines 106-148): fetch the listing page `k`;
on non-200 log a warning and return the empty list; else extract every
product container and log the page's product count. -/
def scrape_page (env : Env) (page_number : Nat) (s : St) :
    Except PyError (List ProductRecord) × St :=
  let response := env.listingResp page_number
  let s1 := bumpListing s
  if response.status ≠ 200 then
    (.ok [], addWarn s1 ("Failed to fetch page " ++ toString page_number ++ ": " ++
      toString response.status))
  else
    match scrapeCards env response.body.productCards s1 with
    | (.error e, s2) => (.error e, s2)
    | (.ok products, s2) =>
      (.ok products, addInfo s2 ("Scraped page " ++ toString page_number ++ ": " ++
        toString products.length ++ " products found."))

/-- The worker closure `scrape_and_store` (src/app.py lines 212-216):
scrape one page and, under the lock, extend the shared list.  The
`time.sleep(1)` pacing has no observable effect in the model.  An exception
raised by `scrape_page` propagates before the extend. -/
def scrape_and_store (env : Env) (acc : List ProductRecord) (page : Nat) (s : St) :
    Except PyError (List ProductRecord) × St :=
  match scrape_page env page s with
  | (.error e, s1) => (.error e, s1)
  | (.ok products, s1) => (.ok (acc ++ products), s1)

/-- The `executor.map(scrape_and_store, range(1, pages + 1))` call
(src/app.py lines 218-219).  ThreadPoolExecutor.map submits one task per
page and stores each task's exception in its Future; `scrape_amazon` never
consumes the result iterator, so a raised exception is discarded: the page
contributes nothing, nothing further is logged, and the pool moves on.
The tasks run under a bounded pool with all appends to the shared list
serialized by the lock; the claims settled here are insensitive to
interleaving order, so the model executes the tasks in page order. -/
def runPool (env : Env) : List Nat → List ProductRecord → St → List ProductRecord × St
  | [], acc, s => (acc, s)
  | k :: rest, acc, s =>
    match scrape_and_store env acc k s with
    | (.ok acc1, s1) => runPool env rest acc1 s1
    | (.error _, s1) => runPool env rest acc s1

/-- The `pages` argument of `scrape_amazon`: `Union[str, int]`. -/
inductive PagesArg where
  | str (s : String)
  | int (n : Int)
deriving DecidableEq

/-- The argument validation of `scrape_amazon` (src/app.py lines 181-186):
a string other than "all", or an integer below 1, raises ValueError. -/
def validatePages : PagesArg → Option PyError
  | .str str =>
    if str ≠ "all" then
      some (.valueError ("Provided an invalid page number: " ++ str))
    else none
  | .int n =>
    if n < 1 then some (.valueError "Pages cannot be negative or 0") else none

/-- The page-count resolution of `scrape_amazon` (src/app.py lines
199-205): when `pages == "all"`, call `get_max_page` inside
`try/except ValueError`, logging and returning `None` (which makes
`scrape_amazon` return False) on failure; an integer count is used as
given.  Only ValueError is caught; any other exception propagates. -/
def resolvePages (env : Env) (pages : PagesArg) (s : St) : Except PyError (Option Int) × St :=
  match pages with
  | .str _ =>
    match get_max_page env s with
    | (.ok p, s1) => (.ok (some p), addInfo s1 ("Max pages available: " ++ toString p))
    | (.error (.valueError m), s1) => (.ok none, addErr s1 ("Error fetching max pages: " ++ m))
    | (.error e, s1) => (.error e, s1)
  | .int n => (.ok (some n), s)

/-- `scrape_amazon` (src/app.py lines 150-230): validate `pages`; call
`get_max_page` once unconditionally (line 196, outside any try — its
ValueError propagates); resolve the page count (second `get_max_page` call
when "all"); run the pool over `range(1, pages + 1)`; write the CSV and
return True. -/
def scrape_amazon (env : Env) (pages : PagesArg) (csv_path : String) (threads : Nat)
    (s : St) : Except PyError Bool × St :=
  match validatePages pages with
  | some e => (.error e, s)
  | none =>
    match get_max_page env s with
    | (.error e, s1) => (.error e, s1)
    | (.ok _max_page, s1) =>
      match resolvePages env pages s1 with
      | (.error e, s2) => (.error e, s2)
      | (.ok none, s2) => (.ok false, s2)
      | (.ok (some p), s2) =>
        let s3 := addInfo s2 ("Scraping " ++ toString p ++ " pages with " ++
          toString threads ++ " threads...")
        let pr := runPool env (List.range' 1 p.toNat) [] s3
        let s4 := addInfo pr.2 ("Scraped " ++ toString pr.1.length ++ " products in total.")
        let s5 := { s4 with csvWrites := s4.csvWrites ++ [(csv_path, pr.1)] }
        let s6 := addInfo s5 ("Data saved to " ++ csv_path ++ ".")
        (.ok true, s6)

/-- The rows page `k` contributes to the output: the value `scrape_page`
computes for it (none when the page's task raises — the exception is
discarded together with the page's rows). -/
def rowsOf (env : Env) (k : Nat) : List ProductRecord :=
  match (scrape_page env k initSt).1 with
  | .ok ps => ps
  | .error _ => []

/-- Scheduler state of the `ThreadPoolExecutor(max_workers=threads)` of
src/app.py line 218: page tasks not yet started, tasks currently executing
on a worker thread, and finished tasks. -/
structure PoolState where
  pending : List Nat
  running : List Nat
  finished : List Nat
deriving DecidableEq

/-- One scheduler step of the thread pool.  `ThreadPoolExecutor` executes
at most `max_workers` submitted calls concurrently: a pending task starts
only while fewer than `c` tasks are running; any running task may finish
at any time. -/
inductive PoolStep (c : Nat) : PoolState → PoolState → Prop
  | start (k : Nat) (rest r d : List Nat) :
      r.length < c → PoolStep c ⟨k :: rest, r, d⟩ ⟨rest, k :: r, d⟩
  | fin (k : Nat) (p r d : List Nat) :
      k ∈ r → PoolStep c ⟨p, r, d⟩ ⟨p, r.erase k, k :: d⟩

/-- The pool as `scrape_amazon` starts it (src/app.py line 219): every
page of `range(1, pages + 1)` is submitted, nothing runs yet. -/
def poolStart (pages : Int) : PoolState := ⟨List.range' 1 pages.toNat, [], []⟩

/-- The scheduler states reachable during the run of a job dispatching
`pages` pages over a pool of `c` workers. -/
def PoolReach (c : Nat) (pages : Int) (st : PoolState) : Prop :=
  Relation.ReflTransGen (PoolStep c) (poolStart pages) st
-- helper lemma block (scratch)

theorem get_seller_fst (env : Env) (url : String) (s t : St) :
    (get_seller env url s).1 = (get_seller env url t).1 := by
  unfold get_seller resultSetText
  by_cases h : (env.sellerResp url).status ≠ 200 <;> simp [h]

theorem get_seller_csv (env : Env) (url : String) (s : St) :
    (get_seller env url s).2.csvWrites = s.csvWrites := by
  unfold get_seller resultSetText
  by_cases h : (env.sellerResp url).status ≠ 200 <;> simp [h, addWarn, bumpSeller]

theorem get_seller_base (env : Env) (url : String) (s : St) :
    (get_seller env url s).2.baseFetchCalls = s.baseFetchCalls := by
  unfold get_seller resultSetText
  by_cases h : (env.sellerResp url).status ≠ 200 <;> simp [h, addWarn, bumpSeller]

theorem scrapeCards_fst (env : Env) (items : List ProductCard) :
    ∀ s t : St, (scrapeCards env items s).1 = (scrapeCards env items t).1 := by
  induction items with
  | nil => intro s t; rfl
  | cons item rest ih =>
    intro s t
    simp only [scrapeCards]
    cases h : noneOrGetHref item.seller_url_elem with
    | error e => rfl
    | ok u =>
      try dsimp only
      by_cases hu : u ≠ "N/A"
      · simp only [if_pos hu]
        have hv := get_seller_fst env u s t
        rcases hgs : get_seller env u s with ⟨vs, s1⟩
        rcases hgt : get_seller env u t with ⟨vt, t1⟩
        rw [hgs, hgt] at hv
        dsimp only at hv
        subst hv
        cases vs with
        | error e => rfl
        | ok sd =>
          try dsimp only
          have hw := ih s1 t1
          rcases hrs : scrapeCards env rest s1 with ⟨ws, s2⟩
          rcases hrt : scrapeCards env rest t1 with ⟨wt, t2⟩
          rw [hrs, hrt] at hw
          dsimp only at hw
          subst hw
          cases ws <;> rfl
      · simp only [if_neg hu]
        try dsimp only
        have hw := ih s t
        rcases hrs : scrapeCards env rest s with ⟨ws, s2⟩
        rcases hrt : scrapeCards env rest t with ⟨wt, t2⟩
        rw [hrs, hrt] at hw
        dsimp only at hw
        subst hw
        cases ws <;> rfl

theorem scrape_page_fst (env : Env) (k : Nat) (s t : St) :
    (scrape_page env k s).1 = (scrape_page env k t).1 := by
  unfold scrape_page
  by_cases h : (env.listingResp k).status ≠ 200
  · simp [h]
  · simp only [if_neg h]
    have hv := scrapeCards_fst env (env.listingResp k).body.productCards
      (bumpListing s) (bumpListing t)
    rcases hcs : scrapeCards env (env.listingResp k).body.productCards (bumpListing s)
      with ⟨vs, s2⟩
    rcases hct : scrapeCards env (env.listingResp k).body.productCards (bumpListing t)
      with ⟨vt, t2⟩
    rw [hcs, hct] at hv
    dsimp only at hv
    subst hv
    cases vs <;> rfl

/-- A state projection untouched by `logger.warning` and by a seller fetch
is untouched by `get_seller`. -/
theorem get_seller_preserve {α : Type} (f : St → α)
    (haw : ∀ s m, f (addWarn s m) = f s) (hbs : ∀ s, f (bumpSeller s) = f s)
    (env : Env) (url : String) (s : St) : f (get_seller env url s).2 = f s := by
  unfold get_seller resultSetText
  by_cases h : (env.sellerResp url).status ≠ 200 <;> simp [h, haw, hbs]

/-- A state projection untouched by warnings and seller fetches is
untouched by the product-card loop. -/
theorem scrapeCards_preserve {α : Type} (f : St → α)
    (haw : ∀ s m, f (addWarn s m) = f s) (hbs : ∀ s, f (bumpSeller s) = f s)
    (env : Env) (items : List ProductCard) :
    ∀ s : St, f (scrapeCards env items s).2 = f s := by
  induction items with
  | nil => intro s; rfl
  | cons item rest ih =>
    intro s
    simp only [scrapeCards]
    cases h : noneOrGetHref item.seller_url_elem with
    | error e => rfl
    | ok u =>
      try dsimp only
      by_cases hu : u ≠ "N/A"
      · simp only [if_pos hu]
        have hc := get_seller_preserve f haw hbs env u s
        rcases hgs : get_seller env u s with ⟨vs, s1⟩
        rw [hgs] at hc
        dsimp only at hc
        cases vs with
        | error e => exact hc
        | ok sd =>
          try dsimp only
          have hr := ih s1
          rcases hrs : scrapeCards env rest s1 with ⟨ws, s2⟩
          rw [hrs] at hr
          dsimp only at hr
          cases ws <;> exact hr.trans hc
      · simp only [if_neg hu]
        try dsimp only
        have hr := ih s
        rcases hrs : scrapeCards env rest s with ⟨ws, s2⟩
        rw [hrs] at hr
        dsimp only at hr
        cases ws <;> exact hr

/-- A state projection untouched by logging and by listing/seller fetches
is untouched by `scrape_page`. -/
theorem scrape_page_preserve {α : Type} (f : St → α)
    (haw : ∀ s m, f (addWarn s m) = f s) (hai : ∀ s m, f (addInfo s m) = f s)
    (hbl : ∀ s, f (bumpListing s) = f s) (hbs : ∀ s, f (bumpSeller s) = f s)
    (env : Env) (k : Nat) (s : St) : f (scrape_page env k s).2 = f s := by
  unfold scrape_page
  by_cases h : (env.listingResp k).status ≠ 200
  · simp [h, haw, hbl]
  · simp only [if_neg h]
    have hc := scrapeCards_preserve f haw hbs env
      (env.listingResp k).body.productCards (bumpListing s)
    rcases hcs : scrapeCards env (env.listingResp k).body.productCards (bumpListing s)
      with ⟨vs, s2⟩
    rw [hcs] at hc
    dsimp only at hc
    cases vs with
    | error e => exact hc.trans (hbl s)
    | ok ps => exact (hai _ _).trans (hc.trans (hbl s))

/-- A state projection untouched by logging and by listing/seller fetches
is untouched by the whole pool run. -/
theorem runPool_preserve {α : Type} (f : St → α)
    (haw : ∀ s m, f (addWarn s m) = f s) (hai : ∀ s m, f (addInfo s m) = f s)
    (hbl : ∀ s, f (bumpListing s) = f s) (hbs : ∀ s, f (bumpSeller s) = f s)
    (env : Env) (l : List Nat) :
    ∀ (acc : List ProductRecord) (s : St), f (runPool env l acc s).2 = f s := by
  induction l with
  | nil => intro acc s; rfl
  | cons k rest ih =>
    intro acc s
    simp only [runPool, scrape_and_store]
    have hc := scrape_page_preserve f haw hai hbl hbs env k s
    rcases hp : scrape_page env k s with ⟨v, s1⟩
    rw [hp] at hc
    dsimp only at hc
    cases v with
    | error e => exact (ih acc s1).trans hc
    | ok ps => exact (ih (acc ++ ps) s1).trans hc

/-- The pool never touches the CSV sink. -/
theorem runPool_csv (env : Env) (l : List Nat) (acc : List ProductRecord) (s : St) :
    (runPool env l acc s).2.csvWrites = s.csvWrites :=
  runPool_preserve (fun st => st.csvWrites)
    (fun _ _ => rfl) (fun _ _ => rfl) (fun _ => rfl) (fun _ => rfl) env l acc s

/-- The pool never fetches the bare search URL. -/
theorem runPool_base (env : Env) (l : List Nat) (acc : List ProductRecord) (s : St) :
    (runPool env l acc s).2.baseFetchCalls = s.baseFetchCalls :=
  runPool_preserve (fun st => st.baseFetchCalls)
    (fun _ _ => rfl) (fun _ _ => rfl) (fun _ => rfl) (fun _ => rfl) env l acc s

/-- What the pool accumulates: every page contributes exactly the rows its
`scrape_page` computes, pages whose task raised contributing nothing. -/
theorem runPool_rows (env : Env) (l : List Nat) :
    ∀ (acc : List ProductRecord) (s : St),
      (runPool env l acc s).1 = acc ++ l.flatMap (rowsOf env) := by
  induction l with
  | nil => intro acc s; simp [runPool]
  | cons k rest ih =>
    intro acc s
    simp only [runPool, scrape_and_store]
    have hf := scrape_page_fst env k s initSt
    rcases hp : scrape_page env k s with ⟨v, s1⟩
    rw [hp] at hf
    dsimp only at hf
    cases v with
    | error e =>
      try dsimp only
      have hz : rowsOf env k = [] := by
        unfold rowsOf
        rw [← hf]
      rw [ih acc s1, List.flatMap_cons, hz]
      simp
    | ok ps =>
      try dsimp only
      have hz : rowsOf env k = ps := by
        unfold rowsOf
        rw [← hf]
      rw [ih (acc ++ ps) s1, List.flatMap_cons, hz]
      simp

/-- `get_max_page` has exactly one side effect: one fetch of the bare URL. -/
theorem get_max_page_snd (env : Env) (s : St) : (get_max_page env s).2 = bumpBase s := by
  unfold get_max_page
  by_cases h : (env.baseResp s.baseFetchCalls).status ≠ 200
  · simp [h]
  · simp only [if_neg h]
    cases hl : (env.baseResp s.baseFetchCalls).body.paginationDisabled.getLast? with
    | none => rfl
    | some el =>
      try dsimp only
      cases hp : pyInt (pyStrip el.text) <;> rfl

/-- `get_max_page` raises nothing but ValueError. -/
theorem get_max_page_error_shape (env : Env) (s : St) :
    (∃ m, (get_max_page env s).1 = .ok m) ∨
    (∃ msg, (get_max_page env s).1 = .error (.valueError msg)) := by
  unfold get_max_page
  by_cases h : (env.baseResp s.baseFetchCalls).status ≠ 200
  · simp [h]
  · simp only [if_neg h]
    cases hl : (env.baseResp s.baseFetchCalls).body.paginationDisabled.getLast? with
    | none => simp
    | some el =>
      try dsimp only
      cases hp : pyInt (pyStrip el.text) <;> simp

/-- After a successful pagination probe, `scrape_amazon` with an integer
page count always completes: it returns True and writes exactly one CSV
holding each dispatched page's contribution, whatever the pages and seller
lookups do. -/
theorem scrape_amazon_int_spec (env : Env) (n : Int) (path : String) (thr : Nat) (s : St)
    (h1 : 1 ≤ n) (m : Int) (hok : (get_max_page env s).1 = .ok m) :
    (scrape_amazon env (.int n) path thr s).1 = .ok true ∧
    (scrape_amazon env (.int n) path thr s).2.csvWrites =
      s.csvWrites ++ [(path, (List.range' 1 n.toNat).flatMap (rowsOf env))] := by
  unfold scrape_amazon validatePages
  have hneg : ¬ n < 1 := not_lt.mpr h1
  simp only [if_neg hneg]
  have hsnd := get_max_page_snd env s
  rcases hmp : get_max_page env s with ⟨v, s1⟩
  rw [hmp] at hok hsnd
  dsimp only at hok hsnd
  subst hok
  subst hsnd
  try dsimp only
  simp only [resolvePages]
  try dsimp only
  refine ⟨by trivial, ?_⟩
  show ((runPool env (List.range' 1 n.toNat) [] _).2.csvWrites ++ _) = _
  rw [runPool_csv, runPool_rows]
  rfl

/-- A non-2xx status is in particular not the 200 the source tests for. -/
theorem non2xx_ne_200 {n : Nat} (h : ¬ is2xx n) : n ≠ 200 := by
  intro he
  exact h (by rw [he]; exact ⟨le_refl 200, by norm_num⟩)

/-- On a failed (non-200) seller-detail fetch, `get_seller` logs one
warning and returns the boolean `False`. -/
theorem get_seller_failure (env : Env) (url : String) (s : St)
    (h : (env.sellerResp url).status ≠ 200) :
    get_seller env url s =
      (.ok (.bool false), addWarn (bumpSeller s)
        ("Failed to fetch page " ++ url ++ ": " ++ toString (env.sellerResp url).status)) := by
  unfold get_seller
  simp [h]

/-- On a 200 seller-detail response, `get_seller` always raises: line 97
reads `.text` off the list `soup.select` returns. -/
theorem get_seller_200 (env : Env) (url : String) (s : St)
    (h : (env.sellerResp url).status = 200) :
    get_seller env url s =
      (.error (.attributeError "ResultSet object has no attribute text"), bumpSeller s) := by
  unfold get_seller resultSetText
  simp [h]

/-- On a non-200 listing fetch, `scrape_page` logs one warning and returns
the empty list. -/
theorem scrape_page_failure (env : Env) (k : Nat) (s : St)
    (h : (env.listingResp k).status ≠ 200) :
    scrape_page env k s =
      (.ok [], addWarn (bumpListing s)
        ("Failed to fetch page " ++ toString k ++ ": " ++ toString (env.listingResp k).status)) := by
  unfold scrape_page
  simp [h]

/-- A 200 listing page whose (single) product container has no seller-link
anchor makes `scrape_page` raise AttributeError at line 137, before any
logging: the state keeps only the fetch bump. -/
theorem scrape_page_missing_link (env : Env) (k : Nat) (s : St) (card : ProductCard)
    (h200 : (env.listingResp k).status = 200)
    (hcards : (env.listingResp k).body.productCards = [card])
    (hmiss : card.seller_url_elem = none) :
    scrape_page env k s =
      (.error (.attributeError "NoneType object has no attribute get"), bumpListing s) := by
  unfold scrape_page
  simp [h200, hcards, scrapeCards, hmiss, noneOrGetHref]

/-- A 200 listing page with one all-defaults card pointing at a seller URL
whose fetch fails yields exactly one row whose seller field is the boolean
`False`. -/
theorem rowsOf_failed_seller (env : Env) (k : Nat) (tx url : String)
    (h200 : (env.listingResp k).status = 200)
    (hcards : (env.listingResp k).body.productCards =
      [{ seller_url_elem := some ⟨tx, some url⟩ }])
    (hna : url ≠ "N/A")
    (hfail : (env.sellerResp url).status ≠ 200) :
    rowsOf env k =
      [{ title := "N/A", price := "N/A", rating := "N/A", seller := .bool false }] := by
  unfold rowsOf scrape_page
  have hgs := get_seller_failure env url (bumpListing initSt) hfail
  simp [h200, hcards, scrapeCards, noneOrGetHref, hna, hgs]

/-- With an integer page count, exactly one pagination-probe fetch always
happens (line 196 runs unconditionally), whether or not it succeeds. -/
theorem scrape_amazon_int_base (env : Env) (n : Int) (path : String) (thr : Nat) (s : St)
    (h1 : 1 ≤ n) :
    (scrape_amazon env (.int n) path thr s).2.baseFetchCalls = s.baseFetchCalls + 1 := by
  unfold scrape_amazon validatePages
  have hneg : ¬ n < 1 := not_lt.mpr h1
  simp only [if_neg hneg]
  have hsnd := get_max_page_snd env s
  rcases hmp : get_max_page env s with ⟨v, s1⟩
  rw [hmp] at hsnd
  dsimp only at hsnd
  subst hsnd
  cases v with
  | error e => rfl
  | ok m =>
    simp only [resolvePages]
    try dsimp only
    show (runPool env (List.range' 1 n.toNat) [] _).2.baseFetchCalls = _
    rw [runPool_base]
    rfl

/-- With `pages = "all"` and a first probe that succeeds, the probe fetch
happens twice: once for the unconditional line 196 call and once inside
the try block. -/
theorem scrape_amazon_all_base (env : Env) (path : String) (thr : Nat) (s : St) (m : Int)
    (hok : (get_max_page env s).1 = .ok m) :
    (scrape_amazon env (.str "all") path thr s).2.baseFetchCalls = s.baseFetchCalls + 2 := by
  unfold scrape_amazon
  have hv : validatePages (.str "all") = none := by decide
  rw [hv]
  have hsnd := get_max_page_snd env s
  rcases hmp : get_max_page env s with ⟨v, s1⟩
  rw [hmp] at hok hsnd
  dsimp only at hok hsnd
  subst hok
  subst hsnd
  simp only [resolvePages]
  have hsnd2 := get_max_page_snd env (bumpBase s)
  rcases hmp2 : get_max_page env (bumpBase s) with ⟨v2, s2⟩
  rw [hmp2] at hsnd2
  dsimp only at hsnd2
  subst hsnd2
  cases v2 with
  | ok p =>
    try dsimp only
    show (runPool env (List.range' 1 p.toNat) [] _).2.baseFetchCalls = _
    rw [runPool_base]
    rfl
  | error e =>
    cases e with
    | valueError msg => rfl
    | attributeError msg => rfl

/-- A 200 listing page whose single product container carries a seller
anchor without an href: every field defaults, seller resolution is
skipped, and the row is all "N/A". -/
theorem rowsOf_defaults (env : Env) (k : Nat) (tx : String)
    (h200 : (env.listingResp k).status = 200)
    (hcards : (env.listingResp k).body.productCards =
      [{ seller_url_elem := some ⟨tx, none⟩ }]) :
    rowsOf env k =
      [{ title := "N/A", price := "N/A", rating := "N/A", seller := .str "N/A" }] := by
  unfold rowsOf scrape_page
  simp [h200, hcards, scrapeCards, noneOrGetHref]

/-- An empty listing body. -/
def emptyBody : ListingBody := {}

/-- A listing body advertising 2 pages and holding no product cards. -/
def pagedBody : ListingBody := { paginationDisabled := [⟨"2", none⟩] }

/-- A network where the probe succeeds (2 pages) and every listing and
seller fetch returns 404. -/
def env404 : Env :=
  { baseResp := fun _ => ⟨200, pagedBody⟩
    listingResp := fun _ => ⟨404, emptyBody⟩
    sellerResp := fun _ => ⟨404, {}⟩ }

/-- A network whose seller-detail pages answer 200 with well-formed
availability and seller elements. -/
def envSeller200 : Env :=
  { baseResp := fun _ => ⟨200, pagedBody⟩
    listingResp := fun _ => ⟨200, { productCards :=
      [{ title_elem := some ⟨"Widget", none⟩,
         seller_url_elem := some ⟨"Widget", some "/seller1"⟩ }] }⟩
    sellerResp := fun _ => ⟨200, { availability := [⟨"In stock", none⟩],
                                   sellerProfile := [⟨"Acme Co", none⟩] }⟩ }

/-- A network whose page 1 has one product card missing the seller-link
anchor. -/
def envMissingLink : Env :=
  { baseResp := fun _ => ⟨200, pagedBody⟩
    listingResp := fun _ => ⟨200, { productCards := [{ title_elem := some ⟨"Widget", none⟩ }] }⟩
    sellerResp := fun _ => ⟨404, {}⟩ }

/-- A network whose page 1 has one card whose seller anchor has no href. -/
def envNoHref : Env :=
  { baseResp := fun _ => ⟨200, pagedBody⟩
    listingResp := fun _ => ⟨200, { productCards := [{ seller_url_elem := some ⟨"x", none⟩ }] }⟩
    sellerResp := fun _ => ⟨404, {}⟩ }

/-- A network whose page 1 has one card pointing at a seller URL that
fails to fetch (503). -/
def envFailSeller : Env :=
  { baseResp := fun _ => ⟨200, pagedBody⟩
    listingResp := fun _ => ⟨200, { productCards := [{ seller_url_elem := some ⟨"x", some "/s1"⟩ }] }⟩
    sellerResp := fun _ => ⟨503, {}⟩ }

/-- A network whose pagination element text is "0". -/
def envPagZero : Env :=
  { baseResp := fun _ => ⟨200, { paginationDisabled := [⟨"0", none⟩] }⟩
    listingResp := fun _ => ⟨404, emptyBody⟩
    sellerResp := fun _ => ⟨404, {}⟩ }

/-- A network whose pagination element text is not numeric. -/
def envBadPag : Env :=
  { baseResp := fun _ => ⟨200, { paginationDisabled := [⟨"next", none⟩] }⟩
    listingResp := fun _ => ⟨404, emptyBody⟩
    sellerResp := fun _ => ⟨404, {}⟩ }

/-- A network with no pagination markup at all (probe body empty). -/
def envNoPagination : Env :=
  { baseResp := fun _ => ⟨200, emptyBody⟩
    listingResp := fun _ => ⟨404, emptyBody⟩
    sellerResp := fun _ => ⟨404, {}⟩ }

/-- A network whose first probe fetch sees pagination but whose second
does not. -/
def envFlaky : Env :=
  { baseResp := fun i => if i = 0 then ⟨200, pagedBody⟩ else ⟨200, emptyBody⟩
    listingResp := fun _ => ⟨404, emptyBody⟩
    sellerResp := fun _ => ⟨404, {}⟩ }

/-- C1 counterexample: the claim says a failed seller-detail fetch makes
seller resolution return the string "N/A"; on this 404 seller response
`get_seller` returns the Python boolean `False` instead. -/
theorem c1_cex_failure_is_false_not_na :
    (get_seller env404 "/s1" initSt).1 = .ok (.bool false) ∧
    (get_seller env404 "/s1" initSt).1 ≠ .ok (.str "N/A") :=
  ⟨by decide, by decide⟩

/-- C1 (amended): for every seller-detail URL whose fetch returns a
non-2xx status, `get_seller` logs one warning and returns the boolean
`False` (not the string "N/A"); that value is stored unchanged as the
record's seller field in the page's rows; and the overall job still
completes successfully — `scrape_amazon` returns True and writes the CSV. -/
theorem c1_seller_fetch_failure_returns_false :
    (∀ (env : Env) (url : String) (s : St), ¬ is2xx (env.sellerResp url).status →
      get_seller env url s =
        (.ok (.bool false), addWarn (bumpSeller s)
          ("Failed to fetch page " ++ url ++ ": " ++ toString (env.sellerResp url).status))) ∧
    (∀ (env : Env) (k : Nat) (tx url : String),
      (env.listingResp k).status = 200 →
      (env.listingResp k).body.productCards = [{ seller_url_elem := some ⟨tx, some url⟩ }] →
      url ≠ "N/A" → ¬ is2xx (env.sellerResp url).status →
      rowsOf env k = [{ title := "N/A", price := "N/A", rating := "N/A",
                        seller := .bool false }]) ∧
    (∀ (env : Env) (n : Int) (path : String) (thr : Nat) (s : St) (m : Int),
      1 ≤ n → (get_max_page env s).1 = .ok m →
      (scrape_amazon env (.int n) path thr s).1 = .ok true ∧
      (scrape_amazon env (.int n) path thr s).2.csvWrites =
        s.csvWrites ++ [(path, (List.range' 1 n.toNat).flatMap (rowsOf env))]) := by
  refine ⟨?_, ?_, ?_⟩
  · intro env url s h
    exact get_seller_failure env url s (non2xx_ne_200 h)
  · intro env k tx url h200 hcards hna h
    exact rowsOf_failed_seller env k tx url h200 hcards hna (non2xx_ne_200 h)
  · intro env n path thr s m h1 hok
    exact scrape_amazon_int_spec env n path thr s h1 m hok

/-- C1 witness: the amended behavior at a concrete 503 seller response. -/
theorem c1_witness :
    ¬ is2xx (envFailSeller.sellerResp "/s1").status ∧
    (get_seller envFailSeller "/s1" initSt).1 = .ok (.bool false) ∧
    rowsOf envFailSeller 1 =
      [{ title := "N/A", price := "N/A", rating := "N/A", seller := .bool false }] ∧
    (scrape_amazon envFailSeller (.int 1) "o.csv" 10 initSt).1 = .ok true := by
  have h1 : ¬ is2xx (envFailSeller.sellerResp "/s1").status := by decide
  have hg := c1_seller_fetch_failure_returns_false.1 envFailSeller "/s1" initSt h1
  have hr := c1_seller_fetch_failure_returns_false.2.1 envFailSeller 1 "x" "/s1"
    (by decide) (by decide) (by decide) h1
  have hj := c1_seller_fetch_failure_returns_false.2.2 envFailSeller 1 "o.csv" 10 initSt 2
    (by decide) (by decide)
  exact ⟨h1, by rw [hg], hr, hj.1⟩

/-- C2 (code bug): on every product detail page whose fetch succeeds with
status 200, `get_seller` raises AttributeError before reading any
availability text — `soup.select` returns a list and line 97 accesses
`.text` on it — so it never returns a seller name and never reaches the
in-stock comparison, contradicting the claim (and its own docstring). -/
theorem c2_get_seller_raises_on_200 (env : Env) (url : String) (s : St)
    (h : (env.sellerResp url).status = 200) :
    get_seller env url s =
      (.error (.attributeError "ResultSet object has no attribute text"), bumpSeller s) :=
  get_seller_200 env url s h

/-- C2 witness: a 200 detail page showing "In stock" with a seller
element present still raises. -/
theorem c2_witness :
    (envSeller200.sellerResp "/seller1").status = 200 ∧
    get_seller envSeller200 "/seller1" initSt =
      (.error (.attributeError "ResultSet object has no attribute text"), bumpSeller initSt) :=
  ⟨rfl, c2_get_seller_raises_on_200 envSeller200 "/seller1" initSt rfl⟩

/-- C3 (code bug): missing title/price/rating (and a missing href) do
default to "N/A" (first conjunct), but a product container missing the
seller-link anchor itself makes line 137 call `.get` on None, and the
AttributeError escapes `scrape_page` — contradicting the claim that every
missing element degrades to "N/A" and no exception escapes page parsing. -/
theorem c3_missing_seller_link_raises :
    (∀ (env : Env) (k : Nat) (tx : String),
      (env.listingResp k).status = 200 →
      (env.listingResp k).body.productCards = [{ seller_url_elem := some ⟨tx, none⟩ }] →
      rowsOf env k = [{ title := "N/A", price := "N/A", rating := "N/A",
                        seller := .str "N/A" }]) ∧
    (∀ (env : Env) (k : Nat) (s : St) (card : ProductCard),
      (env.listingResp k).status = 200 →
      (env.listingResp k).body.productCards = [card] →
      card.seller_url_elem = none →
      scrape_page env k s =
        (.error (.attributeError "NoneType object has no attribute get"), bumpListing s)) := by
  refine ⟨?_, ?_⟩
  · intro env k tx h200 hcards
    exact rowsOf_defaults env k tx h200 hcards
  · intro env k s card h200 hcards hmiss
    exact scrape_page_missing_link env k s card h200 hcards hmiss

/-- C3 witness: the all-defaults row on one concrete page, and the raise
on another whose card lacks the seller anchor. -/
theorem c3_witness :
    rowsOf envNoHref 1 =
      [{ title := "N/A", price := "N/A", rating := "N/A", seller := .str "N/A" }] ∧
    scrape_page envMissingLink 1 initSt =
      (.error (.attributeError "NoneType object has no attribute get"), bumpListing initSt) :=
  ⟨c3_missing_seller_link_raises.1 envNoHref 1 "x" (by decide) (by decide),
   c3_missing_seller_link_raises.2 envMissingLink 1 initSt
     { title_elem := some ⟨"Widget", none⟩ } (by decide) (by decide) (by decide)⟩

/-- C4: an exception raised inside a worker is stored in the Future that
`executor.map` created and never re-raised, because the result iterator
is never consumed: the pool just proceeds with the remaining pages (first
conjunct); a page raising on a missing seller anchor contributes zero rows
and adds nothing to any log stream (second); and `scrape_amazon` still
returns True and writes the CSV built from the surviving pages (third). -/
theorem c4_worker_exception_discarded :
    (∀ (env : Env) (k : Nat) (rest : List Nat) (acc : List ProductRecord)
       (s s1 : St) (e : PyError),
      scrape_page env k s = (.error e, s1) →
      runPool env (k :: rest) acc s = runPool env rest acc s1) ∧
    (∀ (env : Env) (k : Nat) (card : ProductCard),
      (env.listingResp k).status = 200 →
      (env.listingResp k).body.productCards = [card] →
      card.seller_url_elem = none →
      rowsOf env k = [] ∧
      ∀ s : St, (scrape_page env k s).2.warnings = s.warnings ∧
        (scrape_page env k s).2.errlog = s.errlog ∧
        (scrape_page env k s).2.infos = s.infos) ∧
    (∀ (env : Env) (n : Int) (path : String) (thr : Nat) (s : St) (m : Int),
      1 ≤ n → (get_max_page env s).1 = .ok m →
      (scrape_amazon env (.int n) path thr s).1 = .ok true ∧
      (scrape_amazon env (.int n) path thr s).2.csvWrites =
        s.csvWrites ++ [(path, (List.range' 1 n.toNat).flatMap (rowsOf env))]) := by
  refine ⟨?_, ?_, ?_⟩
  · intro env k rest acc s s1 e hp
    simp only [runPool, scrape_and_store]
    rw [hp]
  · intro env k card h200 hcards hmiss
    constructor
    · unfold rowsOf
      rw [scrape_page_missing_link env k initSt card h200 hcards hmiss]
    · intro s
      rw [scrape_page_missing_link env k s card h200 hcards hmiss]
      exact ⟨rfl, rfl, rfl⟩
  · intro env n path thr s m h1 hok
    exact scrape_amazon_int_spec env n path thr s h1 m hok

/-- C4 witness: the silent discard on a concrete raising page. -/
theorem c4_witness :
    scrape_page envMissingLink 1 initSt =
      (.error (.attributeError "NoneType object has no attribute get"), bumpListing initSt) ∧
    runPool envMissingLink [1] [] initSt = runPool envMissingLink [] [] (bumpListing initSt) ∧
    rowsOf envMissingLink 1 = [] ∧
    (scrape_amazon envMissingLink (.int 1) "o.csv" 10 initSt).1 = .ok true := by
  have hp : scrape_page envMissingLink 1 initSt =
      (.error (.attributeError "NoneType object has no attribute get"), bumpListing initSt) := by
    decide
  refine ⟨hp, c4_worker_exception_discarded.1 envMissingLink 1 [] [] initSt _ _ hp, ?_, ?_⟩
  · exact (c4_worker_exception_discarded.2.1 envMissingLink 1
      { title_elem := some ⟨"Widget", none⟩ } (by decide) (by decide) (by decide)).1
  · exact (c4_worker_exception_discarded.2.2 envMissingLink 1 "o.csv" 10 initSt 2
      (by decide) (by decide)).1

/-- C5 counterexample: the claim requires zero discovery fetches when an
integer page count is supplied and exactly one for "all"; the code
performs one and two respectively, because the `get_max_page` call at
line 196 runs unconditionally before the conditional "all" probe. -/
theorem c5_cex_probe_counts :
    (scrape_amazon env404 (.int 2) "out.csv" 10 initSt).2.baseFetchCalls = 1 ∧
    (scrape_amazon env404 (.str "all") "out.csv" 10 initSt).2.baseFetchCalls = 2 :=
  ⟨by decide, by decide⟩

/-- C5 (amended): the pagination probe runs once unconditionally for
every validated job — also when the caller supplies an integer page
count, whose value is then used with no further probe — and a second
time (inside the try block) when the caller requests "all" and the first
probe succeeded. -/
theorem c5_probe_runs_unconditionally :
    (∀ (env : Env) (n : Int) (path : String) (thr : Nat) (s : St), 1 ≤ n →
      (scrape_amazon env (.int n) path thr s).2.baseFetchCalls = s.baseFetchCalls + 1) ∧
    (∀ (env : Env) (path : String) (thr : Nat) (s : St) (m : Int),
      (get_max_page env s).1 = .ok m →
      (scrape_amazon env (.str "all") path thr s).2.baseFetchCalls = s.baseFetchCalls + 2) :=
  ⟨fun env n path thr s h1 => scrape_amazon_int_base env n path thr s h1,
   fun env path thr s m hok => scrape_amazon_all_base env path thr s m hok⟩

/-- C5 witness: both probe counts at a concrete network. -/
theorem c5_witness :
    (scrape_amazon env404 (.int 2) "o.csv" 5 initSt).2.baseFetchCalls =
      initSt.baseFetchCalls + 1 ∧
    (scrape_amazon env404 (.str "all") "o.csv" 5 initSt).2.baseFetchCalls =
      initSt.baseFetchCalls + 2 :=
  ⟨c5_probe_runs_unconditionally.1 env404 2 "o.csv" 5 initSt (by decide),
   c5_probe_runs_unconditionally.2 env404 "o.csv" 5 initSt 2 (by decide)⟩

/-- C6: a pagination-discovery failure aborts the job before any worker
starts and nothing is written.  First conjunct: a failing unconditional
probe propagates its ValueError with the final state `bumpBase s` — one
probe fetch, zero listing or seller fetches, `csvWrites` untouched.
Second: under "all", a second-probe failure makes the job return False,
again with only probe fetches and no CSV.  Third: the False outcome is
reachable only that way — it implies "all" was requested, the second
probe failed, and no CSV write or worker fetch happened. -/
theorem c6_discovery_failure_aborts :
    (∀ (env : Env) (pages : PagesArg) (path : String) (thr : Nat) (s : St) (e : PyError),
      validatePages pages = none →
      (get_max_page env s).1 = .error e →
      scrape_amazon env pages path thr s = (.error e, bumpBase s)) ∧
    (∀ (env : Env) (path : String) (thr : Nat) (s : St) (m : Int) (msg : String),
      (get_max_page env s).1 = .ok m →
      (get_max_page env (bumpBase s)).1 = .error (.valueError msg) →
      scrape_amazon env (.str "all") path thr s =
        (.ok false, addErr (bumpBase (bumpBase s)) ("Error fetching max pages: " ++ msg))) ∧
    (∀ (env : Env) (pages : PagesArg) (path : String) (thr : Nat) (s : St),
      (scrape_amazon env pages path thr s).1 = .ok false →
      pages = .str "all" ∧ ∃ msg,
        (get_max_page env (bumpBase s)).1 = .error (.valueError msg) ∧
        (scrape_amazon env pages path thr s).2.csvWrites = s.csvWrites ∧
        (scrape_amazon env pages path thr s).2.listingFetchCalls = s.listingFetchCalls ∧
        (scrape_amazon env pages path thr s).2.sellerFetchCalls = s.sellerFetchCalls) := by
  refine ⟨?_, ?_, ?_⟩
  · intro env pages path thr s e hval herr
    unfold scrape_amazon
    rw [hval]
    have hsnd := get_max_page_snd env s
    rcases hmp : get_max_page env s with ⟨v, s1⟩
    rw [hmp] at herr hsnd
    dsimp only at herr hsnd
    subst herr
    subst hsnd
    rfl
  · intro env path thr s m msg hok herr2
    unfold scrape_amazon
    have hv : validatePages (.str "all") = none := by decide
    rw [hv]
    have hsnd := get_max_page_snd env s
    rcases hmp : get_max_page env s with ⟨v, s1⟩
    rw [hmp] at hok hsnd
    dsimp only at hok hsnd
    subst hok
    subst hsnd
    simp only [resolvePages]
    have hsnd2 := get_max_page_snd env (bumpBase s)
    rcases hmp2 : get_max_page env (bumpBase s) with ⟨v2, s2⟩
    rw [hmp2] at herr2 hsnd2
    dsimp only at herr2 hsnd2
    subst herr2
    subst hsnd2
    rfl
  · intro env pages path thr s h
    unfold scrape_amazon at h ⊢
    cases hval : validatePages pages with
    | some e => rw [hval] at h; simp at h
    | none =>
      rw [hval] at h
      dsimp only at h ⊢
      have hsnd := get_max_page_snd env s
      rcases hmp : get_max_page env s with ⟨v, s1⟩
      try rw [hmp] at h
      try rw [hmp] at hsnd
      try dsimp only at hsnd
      subst hsnd
      cases v with
      | error e => simp at h
      | ok m =>
        cases pages with
        | int n => simp [resolvePages] at h
        | str str =>
          have hall : str = "all" := by
            by_contra hne
            simp [validatePages, hne] at hval
          subst hall
          simp only [resolvePages] at h ⊢
          have hsnd2 := get_max_page_snd env (bumpBase s)
          rcases hmp2 : get_max_page env (bumpBase s) with ⟨v2, s2⟩
          try rw [hmp2] at h
          try rw [hmp2] at hsnd2
          try dsimp only at hsnd2
          subst hsnd2
          cases v2 with
          | ok p => simp at h
          | error e =>
            cases e with
            | attributeError msg => simp at h
            | valueError msg =>
              refine ⟨by trivial, msg, ?_, ?_, ?_, ?_⟩ <;> trivial

/-- C6 witness: a failing probe on a concrete pagination-free network
aborts with no CSV and no worker fetch; a network whose second probe
fails returns False the same way; and the False-outcome characterization
applied to it. -/
theorem c6_witness :
    scrape_amazon envNoPagination (.int 1) "o.csv" 10 initSt =
      (.error (.valueError "Pagination information not found on the page."), bumpBase initSt) ∧
    scrape_amazon envFlaky (.str "all") "o.csv" 10 initSt =
      (.ok false, addErr (bumpBase (bumpBase initSt))
        ("Error fetching max pages: " ++ "Pagination information not found on the page.")) ∧
    ((scrape_amazon envFlaky (.str "all") "o.csv" 10 initSt).2.csvWrites =
      initSt.csvWrites ∧
     (scrape_amazon envFlaky (.str "all") "o.csv" 10 initSt).2.listingFetchCalls =
      initSt.listingFetchCalls) := by
  refine ⟨?_, ?_, ?_⟩
  · exact c6_discovery_failure_aborts.1 envNoPagination (.int 1) "o.csv" 10 initSt _
      (by decide) (by decide)
  · exact c6_discovery_failure_aborts.2.1 envFlaky "o.csv" 10 initSt 2
      "Pagination information not found on the page." (by decide) (by decide)
  · have h := c6_discovery_failure_aborts.2.2 envFlaky (.str "all") "o.csv" 10 initSt
      (by decide)
    rcases h with ⟨-, msg, -, hcsv, hlist, -⟩
    exact ⟨hcsv, hlist⟩

/-- C7 counterexample: a disabled pagination element whose text is "0"
makes `get_max_page` return 0 — the probe result is not always a positive
integer as the claim states. -/
theorem c7_cex_nonpositive :
    (get_max_page envPagZero initSt).1 = .ok 0 ∧ ¬ (0 : Int) > 0 :=
  ⟨by decide, by decide⟩

/-- C7 (amended): on a 200 probe response, `get_max_page` returns the
integer parse of the last disabled pagination element's stripped text —
with no positivity check, so non-positive numeric text is returned as
is —; it fails with the not-found ValueError when no pagination markup
exists and with the extraction ValueError when that text is non-numeric. -/
theorem c7_get_max_page_spec (env : Env) (s : St)
    (h200 : (env.baseResp s.baseFetchCalls).status = 200) :
    (∀ (el : Elem) (n : Int),
      (env.baseResp s.baseFetchCalls).body.paginationDisabled.getLast? = some el →
      pyInt (pyStrip el.text) = some n → (get_max_page env s).1 = .ok n) ∧
    (∀ el : Elem,
      (env.baseResp s.baseFetchCalls).body.paginationDisabled.getLast? = some el →
      pyInt (pyStrip el.text) = none →
      (get_max_page env s).1 = .error (.valueError "Failed to extract the max page number.")) ∧
    ((env.baseResp s.baseFetchCalls).body.paginationDisabled = [] →
      (get_max_page env s).1 =
        .error (.valueError "Pagination information not found on the page.")) := by
  refine ⟨?_, ?_, ?_⟩
  · intro el n hlast hparse
    unfold get_max_page
    simp [h200, hlast, hparse]
  · intro el hlast hparse
    unfold get_max_page
    simp [h200, hlast, hparse]
  · intro hempty
    unfold get_max_page
    simp [h200, hempty]

/-- C7 witness: the three behaviors at concrete networks — "2" parses to
2, a pagination-free page is a not-found error, and a non-numeric "next"
is an extraction error. -/
theorem c7_witness :
    (get_max_page env404 initSt).1 = .ok 2 ∧
    (get_max_page envNoPagination initSt).1 =
      .error (.valueError "Pagination information not found on the page.") ∧
    (get_max_page envBadPag initSt).1 =
      .error (.valueError "Failed to extract the max page number.") :=
  ⟨(c7_get_max_page_spec env404 initSt (by decide)).1 ⟨"2", none⟩ 2 (by decide) (by decide),
   (c7_get_max_page_spec envNoPagination initSt (by decide)).2.2 (by decide),
   (c7_get_max_page_spec envBadPag initSt (by decide)).2.1 ⟨"next", none⟩ (by decide) (by decide)⟩

/-- C8: for every page whose fetch returns a non-2xx status, `scrape_page`
records exactly one warning and returns the empty list (first conjunct),
so the page contributes zero records to the output (second), and the job
still completes — `scrape_amazon` returns True and writes the CSV made of
every page's contribution, in which such a page's share is `[]` (third). -/
theorem c8_non2xx_page_contributes_nothing :
    (∀ (env : Env) (k : Nat) (s : St), ¬ is2xx (env.listingResp k).status →
      scrape_page env k s =
        (.ok [], addWarn (bumpListing s)
          ("Failed to fetch page " ++ toString k ++ ": " ++
            toString (env.listingResp k).status))) ∧
    (∀ (env : Env) (k : Nat), ¬ is2xx (env.listingResp k).status → rowsOf env k = []) ∧
    (∀ (env : Env) (n : Int) (path : String) (thr : Nat) (s : St) (m : Int),
      1 ≤ n → (get_max_page env s).1 = .ok m →
      (scrape_amazon env (.int n) path thr s).1 = .ok true ∧
      (scrape_amazon env (.int n) path thr s).2.csvWrites =
        s.csvWrites ++ [(path, (List.range' 1 n.toNat).flatMap (rowsOf env))]) := by
  refine ⟨?_, ?_, ?_⟩
  · intro env k s h
    exact scrape_page_failure env k s (non2xx_ne_200 h)
  · intro env k h
    unfold rowsOf
    rw [scrape_page_failure env k initSt (non2xx_ne_200 h)]
  · intro env n path thr s m h1 hok
    exact scrape_amazon_int_spec env n path thr s h1 m hok

/-- C8 witness: a network whose every listing fetch is 404 still
completes, each page contributing zero rows and one warning. -/
theorem c8_witness :
    scrape_page env404 1 initSt =
      (.ok [], addWarn (bumpListing initSt)
        ("Failed to fetch page " ++ toString 1 ++ ": " ++ toString 404)) ∧
    rowsOf env404 1 = [] ∧
    (scrape_amazon env404 (.int 2) "o.csv" 10 initSt).1 = .ok true ∧
    (scrape_amazon env404 (.int 2) "o.csv" 10 initSt).2.csvWrites =
      initSt.csvWrites ++ [("o.csv", (List.range' 1 (2 : Int).toNat).flatMap (rowsOf env404))] := by
  have hj := c8_non2xx_page_contributes_nothing.2.2 env404 2 "o.csv" 10 initSt 2
    (by decide) (by decide)
  exact ⟨c8_non2xx_page_contributes_nothing.1 env404 1 initSt (by decide),
    c8_non2xx_page_contributes_nothing.2.1 env404 1 (by decide), hj.1, hj.2⟩

/-- C9: a `pages` argument that is a string other than "all", or an
integer below 1, makes `scrape_amazon` raise ValueError with the state
returned untouched — in particular with all three fetch counters exactly
as they were, so no network call of any kind has happened. -/
theorem c9_invalid_pages_rejected_before_network :
    (∀ (env : Env) (str path : String) (thr : Nat) (s : St), str ≠ "all" →
      scrape_amazon env (.str str) path thr s =
        (.error (.valueError ("Provided an invalid page number: " ++ str)), s)) ∧
    (∀ (env : Env) (n : Int) (path : String) (thr : Nat) (s : St), n < 1 →
      scrape_amazon env (.int n) path thr s =
        (.error (.valueError "Pages cannot be negative or 0"), s)) := by
  constructor
  · intro env str path thr s h
    unfold scrape_amazon validatePages
    simp [h]
  · intro env n path thr s h
    unfold scrape_amazon validatePages
    simp [h]

/-- C9 witness: `pages = "tomorrow"` and `pages = 0` are both rejected
with zero fetches. -/
theorem c9_witness :
    scrape_amazon env404 (.str "tomorrow") "o.csv" 10 initSt =
      (.error (.valueError ("Provided an invalid page number: " ++ "tomorrow")), initSt) ∧
    scrape_amazon env404 (.int 0) "o.csv" 10 initSt =
      (.error (.valueError "Pages cannot be negative or 0"), initSt) :=
  ⟨c9_invalid_pages_rejected_before_network.1 env404 "tomorrow" "o.csv" 10 initSt (by decide),
   c9_invalid_pages_rejected_before_network.2 env404 0 "o.csv" 10 initSt (by decide)⟩

/-- C10: in every scheduler state the pool of
`ThreadPoolExecutor(max_workers=c)` can reach while running the dispatched
pages `range(1, pages + 1)`, at most `c` page-scrape tasks execute
concurrently: the worker count is a hard cap, never an unbounded fan-out. -/
theorem c10_pool_concurrency_bound (c : Nat) (pages : Int) (st : PoolState)
    (h : PoolReach c pages st) : st.running.length ≤ c := by
  induction h with
  | refl => simp [poolStart]
  | tail hr hstep ih =>
    cases hstep with
    | start k rest r d hlt => simpa using hlt
    | fin k p r d hk =>
      calc (r.erase k).length ≤ r.length := (List.erase_sublist k r).length_le
        _ ≤ c := ih

/-- C10 witness: with 5 workers and 20 pages, the state after starting the
first task is reachable and respects the bound. -/
theorem c10_witness :
    PoolReach 5 20 ⟨List.range' 2 19, [1], []⟩ ∧
    (PoolState.mk (List.range' 2 19) [1] []).running.length ≤ 5 := by
  have hinit : poolStart 20 = ⟨1 :: List.range' 2 19, [], []⟩ := by decide
  have hstep : PoolStep 5 (poolStart 20) ⟨List.range' 2 19, [1], []⟩ := by
    rw [hinit]
    exact PoolStep.start 1 (List.range' 2 19) [] [] (by decide)
  have hreach : PoolReach 5 20 ⟨List.range' 2 19, [1], []⟩ :=
    Relation.ReflTransGen.single hstep
  exact ⟨hreach, c10_pool_concurrency_bound 5 20 _ hreach⟩
